import Mathlib

/-
Verification of the BrineX decision-support logic (src/app.py).

The business-logic functions of the dashboard — calculate_metrics,
get_viability_verdict and get_recommendation — are embedded as pure Lean
functions over exact rational arithmetic (ℚ stands in for Python floats;
every formula in the source is a plain arithmetic expression).  Constructs
the design document describes but that are absent from the provided source
(the threshold classifier over the five-feature vector, the per-mode
production formula, and batch schema validation) are modelled from the
design document and marked as such in their doc comments.
-/

/-- Truncation toward zero on a rational: the behaviour of Python int(x)
on a float, floor for nonnegative arguments and ceiling otherwise. -/
def truncInt (q : ℚ) : ℤ := if 0 ≤ q then ⌊q⌋ else ⌈q⌉

/-- The dictionary returned by calculate_metrics in src/app.py. -/
structure Metrics where
  mg_kg : ℚ
  na_kg : ℚ
  ca_kg : ℚ
  val_mg : ℚ
  val_na : ℚ
  val_ca : ℚ
  total_revenue : ℚ
  est_profit : ℚ
  env_score : ℤ
  risk : String
  sal_red : ℚ
  loc_penalty : ℚ
deriving Repr, DecidableEq

/-- Embedding of calculate_metrics (src/app.py, lines 54-97). -/
def calculate_metrics (tds na mg ca flow : ℚ) (location : String) : Metrics :=
  let mg_rec_kg := (mg * flow) / 1000
  let na_rec_kg := (na * flow) / 1000
  let ca_rec_kg := (ca * flow) / 1000
  let val_mg := mg_rec_kg * 2.50
  let val_na := na_rec_kg * 0.12
  let val_ca := ca_rec_kg * 0.08
  let total_revenue := val_mg + val_na + val_ca
  let est_opex := total_revenue * 0.60
  let est_profit := total_revenue - est_opex
  let base_deduction := tds / 1200
  let loc_penalty : ℚ := if location = "High" then 15 else if location = "Medium" then 8 else 0
  let raw_score := 100 - base_deduction - loc_penalty
  let env_score := max 0 (truncInt raw_score)
  let risk_lvl := if env_score ≥ 75 then "Low Risk"
    else if env_score ≥ 45 then "Moderate Risk" else "High Risk"
  let sal_reduction := tds * 0.35
  { mg_kg := mg_rec_kg, na_kg := na_rec_kg, ca_kg := ca_rec_kg,
    val_mg := val_mg, val_na := val_na, val_ca := val_ca,
    total_revenue := total_revenue, est_profit := est_profit,
    env_score := env_score, risk := risk_lvl, sal_red := sal_reduction,
    loc_penalty := loc_penalty }

/-- Minimum daily profit for viability (src/app.py, line 105). -/
def PROFIT_THRESHOLD : ℚ := 500

/-- Embedding of get_viability_verdict (src/app.py, lines 99-130):
returns the (title, description, background colour, text colour) tuple. -/
def get_viability_verdict (score profit : ℚ) : String × String × String × String :=
  if score ≥ 75 ∧ profit > PROFIT_THRESHOLD then
    ("🌟 HIGHLY VIABLE",
     "Excellent Balance: The project is **highly profitable** and **environmentally safe**. Highly recommended.",
     "#d4edda", "#155724")
  else if score < 45 then
    ("⛔ NOT RECOMMENDED",
     "Critical Risk: The **environmental impact is too high** (Score < 45). Viability is rejected regardless of profit.",
     "#f8d7da", "#721c24")
  else if profit < PROFIT_THRESHOLD then
    ("⚠️ MARGINAL VIABILITY",
     "Financial Risk: Environmental score is good, but **profitability is low**. Requires subsidies or optimization.",
     "#fff3cd", "#856404")
  else
    ("⚖️ PROCEED WITH CAUTION",
     "Mixed Outlook: Profitable, but **environmental risks exist** (Score 45-75). Strict monitoring required.",
     "#e2e3e5", "#383d41")

/-- Embedding of get_recommendation (src/app.py, lines 132-140). -/
def get_recommendation (tds mg : ℚ) (location : String) : String :=
  if tds > 80000 then "High Salinity: Evaporation & Salt Recovery System"
  else if mg > 1500 then "Magnesium Recovery via Chemical Precipitation"
  else if location = "High" then "Zero Liquid Discharge (ZLD)"
  else "Controlled Dilution with Diffuser System"

/-- The three treatment modes of the design document (glossary). -/
inductive Mode where
  | SKIP
  | MAGNESIUM
  | CALCIUM
deriving DecidableEq, Repr

/-- Modelled from the spec: the deterministic classification rule over the
five-feature vector (magnesium, calcium, salinity, temperature, flow) with
configurable thresholds — class MAGNESIUM if magnesium exceeds the magnesium
threshold, else CALCIUM if calcium exceeds the calcium threshold, else SKIP.
The trained-classifier variants this rule labels data for are not among the
provided source files; the sole provided source has no calcium branch. -/
def classify (mgThr caThr mg ca sal temp flow : ℚ) : Mode :=
  if mg > mgThr then Mode.MAGNESIUM
  else if ca > caThr then Mode.CALCIUM
  else Mode.SKIP

/-- Modelled from the spec: per-mode daily production in tons/day,
mass × efficiency × density/recovery constant
(`(conc/1000) * flow * efficiency * density / 1000`); this formula is absent
from the provided source, whose revenue computation takes no mode input. -/
def production (conc flow efficiency density : ℚ) : ℚ :=
  (conc / 1000) * flow * efficiency * density / 1000

/-- Modelled from the spec: profit = production × unit price − cost. -/
def profit_of (prod price cost : ℚ) : ℚ := prod * price - cost

/-- An input row: named numeric fields. -/
abbrev Row := List (String × ℚ)

/-- The required input columns of the richer variants (design document §6). -/
def requiredFields : List String :=
  ["Mg_mgL", "Ca_mgL", "Salinity_mgL", "Temp_C", "Flow_m3_day"]

/-- The required fields a row does not provide. -/
def missingFields (row : Row) : List String :=
  requiredFields.filter (fun f => !(row.map Prod.fst).contains f)

/-- Modelled from the spec: batch schema validation (design document §6/§7) —
rows missing any required field make the whole batch fail with an error
enumerating the missing field names, with no partial result; this loader-side
check is not among the provided source files. -/
def validateBatch (rows : List Row) : Except (List String) (List Row) :=
  let missing := (rows.foldr (fun r acc => missingFields r ++ acc) []).dedup
  if missing.isEmpty then Except.ok rows else Except.error missing

/-- A concrete batch: a complete row followed by a row missing the flow field. -/
def sampleBatch : List Row :=
  [[("Mg_mgL", 1800), ("Ca_mgL", 900), ("Salinity_mgL", 65000),
    ("Temp_C", 25), ("Flow_m3_day", 120000)],
   [("Mg_mgL", 1000), ("Ca_mgL", 500), ("Salinity_mgL", 50000),
    ("Temp_C", 25)]]

/-- Truncation toward zero never exceeds an integer bound lying above the
argument. -/
theorem truncInt_le {q : ℚ} {n : ℤ} (h : q ≤ (n : ℚ)) : truncInt q ≤ n := by
  unfold truncInt
  split
  · exact le_trans (Int.floor_le_floor h) (le_of_eq (Int.floor_intCast n))
  · exact Int.ceil_le.mpr h

/-- Claim C1: for every input, the estimated profit returned by
calculate_metrics equals total revenue minus the estimated operating cost
(60% of total revenue), hence exactly 0.4 times total revenue. -/
theorem profit_is_forty_percent_of_revenue (tds na mg ca flow : ℚ) (loc : String) :
    (calculate_metrics tds na mg ca flow loc).est_profit
        = (calculate_metrics tds na mg ca flow loc).total_revenue
          - (calculate_metrics tds na mg ca flow loc).total_revenue * 0.60
      ∧ (calculate_metrics tds na mg ca flow loc).est_profit
        = 0.4 * (calculate_metrics tds na mg ca flow loc).total_revenue := by
  constructor <;> (simp only [calculate_metrics]; try ring)

/-- Claim C2, counterexample: at one fixed chemistry (tds 50000, na 20000,
mg 1000, ca 800, flow 10000) two different recommended treatment modes arise
(locations High and Low), yet total revenue is identical — revenue is not
keyed off the mode. -/
theorem revenue_ignores_mode_counterexample :
    get_recommendation 50000 1000 ("High") = "Zero Liquid Discharge (ZLD)"
      ∧ get_recommendation 50000 1000 ("Low") = "Controlled Dilution with Diffuser System"
      ∧ (calculate_metrics 50000 20000 1000 800 10000 ("High")).total_revenue
        = (calculate_metrics 50000 20000 1000 800 10000 ("Low")).total_revenue :=
  ⟨by decide, by decide, by norm_num [calculate_metrics]⟩

/-- Claim C2, amended: calculate_metrics takes no mode input and its total
revenue is determined by na, mg, ca and flow alone — it is unchanged under
any variation of tds and location, the only inputs that can change the
recommended mode. -/
theorem revenue_independent_of_mode (tds tds' na mg ca flow : ℚ) (loc loc' : String) :
    (calculate_metrics tds na mg ca flow loc).total_revenue
      = (calculate_metrics tds' na mg ca flow loc').total_revenue := rfl

/-- Claim C3: on the vector Mg=1900, Ca=500, Salinity=60000, Temp=25,
Flow=50000 the magnesium mode is selected regardless of any other parameter:
get_recommendation picks magnesium recovery for every location, and the
design document's threshold rule (thresholds 1800/900) classifies
MAGNESIUM. -/
theorem high_magnesium_selects_magnesium_recovery :
    (∀ loc : String,
        get_recommendation 60000 1900 loc = "Magnesium Recovery via Chemical Precipitation")
      ∧ classify 1800 900 1900 500 60000 25 50000 = Mode.MAGNESIUM := by
  constructor
  · intro loc
    norm_num [get_recommendation]
  · decide

/-- Claim C4: on the vector Mg=1000, Ca=1000, Salinity=60000, Temp=25,
Flow=50000 with calcium threshold 900 and magnesium threshold 1800, the
classification rule selects CALCIUM, because calcium exceeds its threshold
while magnesium does not. -/
theorem calcium_scenario_classifies_calcium :
    classify 1800 900 1000 1000 60000 25 50000 = Mode.CALCIUM
      ∧ ¬ ((1000:ℚ) > 1800) ∧ (1000:ℚ) > 900 := by
  refine ⟨by decide, by norm_num, by norm_num⟩

/-- Claim C5: under mode MAGNESIUM with flow 100000 and Mg 1800, daily
production equals (1800/1000)·100000·0.75·2.4/1000 tons/day exactly (that
is, 324), and profit equals production times unit price 150 minus cost. -/
theorem magnesium_production_formula_value :
    production 1800 100000 0.75 2.4 = (1800 / 1000) * 100000 * 0.75 * 2.4 / 1000
      ∧ production 1800 100000 0.75 2.4 = 324
      ∧ ∀ cost : ℚ, profit_of (production 1800 100000 0.75 2.4) 150 cost
          = production 1800 100000 0.75 2.4 * 150 - cost :=
  ⟨rfl, by norm_num [production], fun cost => rfl⟩

/-- Claim C6: calculate_metrics, get_recommendation and get_viability_verdict
are deterministic — invocations with pairwise equal arguments return equal
results. -/
theorem operations_deterministic
    (tds na mg ca flow tds' na' mg' ca' flow' score p score' p' : ℚ) (loc loc' : String)
    (h1 : tds = tds') (h2 : na = na') (h3 : mg = mg') (h4 : ca = ca')
    (h5 : flow = flow') (h6 : loc = loc') (h7 : score = score') (h8 : p = p') :
    calculate_metrics tds na mg ca flow loc = calculate_metrics tds' na' mg' ca' flow' loc'
      ∧ get_recommendation tds mg loc = get_recommendation tds' mg' loc'
      ∧ get_viability_verdict score p = get_viability_verdict score' p' := by
  subst h1 h2 h3 h4 h5 h6 h7 h8
  exact ⟨rfl, rfl, rfl⟩

/-- Witness for claim C6 at the dashboard's default inputs. -/
theorem operations_deterministic_witness :
    calculate_metrics 65000 22000 1800 900 120000 ("Low")
        = calculate_metrics 65000 22000 1800 900 120000 ("Low")
      ∧ get_recommendation 65000 1800 ("Low") = get_recommendation 65000 1800 ("Low")
      ∧ get_viability_verdict 45 500 = get_viability_verdict 45 500 :=
  operations_deterministic 65000 22000 1800 900 120000 65000 22000 1800 900 120000
    45 500 45 500 ("Low") ("Low") rfl rfl rfl rfl rfl rfl rfl rfl

/-- A field missing from some row of a batch appears in the concatenation of
all rows' missing fields. -/
theorem mem_foldr_missingFields (rows : List Row) :
    ∀ r ∈ rows, ∀ f ∈ missingFields r,
      f ∈ rows.foldr (fun r acc => missingFields r ++ acc) [] := by
  induction rows with
  | nil => intro r hr; simp at hr
  | cons a as ih =>
    intro r hr f hf
    rcases List.mem_cons.mp hr with h1 | h1
    · exact List.mem_append.mpr (Or.inl (h1 ▸ hf))
    · exact List.mem_append.mpr (Or.inr (ih r h1 f hf))

/-- Claim C7: a batch containing a row that misses a required field is
rejected whole — validateBatch returns an error naming every missing field
of every row, and produces no result for any row. -/
theorem missing_field_rejects_batch (rows : List Row)
    (h : ∃ r ∈ rows, missingFields r ≠ []) :
    ∃ l : List String, validateBatch rows = Except.error l ∧ l ≠ []
      ∧ (∀ r ∈ rows, ∀ f ∈ missingFields r, f ∈ l)
      ∧ ∀ res : List Row, validateBatch rows ≠ Except.ok res := by
  have hall := mem_foldr_missingFields rows
  obtain ⟨r0, hr0, hne⟩ := h
  obtain ⟨f0, hf0⟩ := List.exists_mem_of_ne_nil _ hne
  have hf0d : f0 ∈ (rows.foldr (fun r acc => missingFields r ++ acc) []).dedup :=
    List.mem_dedup.mpr (hall r0 hr0 f0 hf0)
  have hdne : (rows.foldr (fun r acc => missingFields r ++ acc) []).dedup ≠ [] :=
    List.ne_nil_of_mem hf0d
  have hemp : ((rows.foldr (fun r acc => missingFields r ++ acc) []).dedup).isEmpty = false := by
    cases hd : (rows.foldr (fun r acc => missingFields r ++ acc) []).dedup with
    | nil => exact absurd hd hdne
    | cons x xs => rfl
  have key : validateBatch rows
      = Except.error ((rows.foldr (fun r acc => missingFields r ++ acc) []).dedup) := by
    simp only [validateBatch, hemp]
    simp
  refine ⟨_, key, hdne, ?_, ?_⟩
  · intro r hr f hf
    exact List.mem_dedup.mpr (hall r hr f hf)
  · intro res hcon
    rw [key] at hcon
    exact Except.noConfusion hcon

/-- Witness for claim C7 on the concrete batch whose second row misses the
flow field. -/
theorem missing_field_rejects_batch_witness :
    (∃ r ∈ sampleBatch, missingFields r ≠ [])
      ∧ ∃ l : List String, validateBatch sampleBatch = Except.error l ∧ l ≠ []
        ∧ (∀ r ∈ sampleBatch, ∀ f ∈ missingFields r, f ∈ l)
        ∧ ∀ res : List Row, validateBatch sampleBatch ≠ Except.ok res :=
  ⟨by decide, missing_field_rejects_batch sampleBatch (by decide)⟩

/-- Claim C8: for tds ≥ 0 and a location among Low, Medium, High, the
sustainability score of calculate_metrics equals
max(0, int(100 − tds/1200 − location penalty)) with penalties 15/8/0 for
High/Medium/Low, and lies between 0 and 100. -/
theorem env_score_bounded (tds na mg ca flow : ℚ) (location : String)
    (htds : 0 ≤ tds)
    (hloc : location = "Low" ∨ location = "Medium" ∨ location = "High") :
    (calculate_metrics tds na mg ca flow location).env_score
        = max 0 (truncInt (100 - tds / 1200 -
            (if location = "High" then 15 else if location = "Medium" then 8 else 0)))
      ∧ 0 ≤ (calculate_metrics tds na mg ca flow location).env_score
      ∧ (calculate_metrics tds na mg ca flow location).env_score ≤ 100 := by
  have hdef : (calculate_metrics tds na mg ca flow location).env_score
      = max 0 (truncInt (100 - tds / 1200 -
          (if location = "High" then 15 else if location = "Medium" then 8 else 0))) := rfl
  refine ⟨hdef, ?_, ?_⟩
  · rw [hdef]
    exact le_max_left _ _
  · rw [hdef]
    refine max_le (by norm_num) (truncInt_le ?_)
    have hpen : (0:ℚ) ≤ (if location = "High" then (15:ℚ)
        else if location = "Medium" then 8 else 0) := by
      split_ifs <;> norm_num
    have hdiv : (0:ℚ) ≤ tds / 1200 := by positivity
    push_cast
    linarith

/-- Witness for claim C8 at tds 65000, location Medium. -/
theorem env_score_bounded_witness :
    (0:ℚ) ≤ 65000
      ∧ 0 ≤ (calculate_metrics 65000 22000 1800 900 120000 ("Medium")).env_score
      ∧ (calculate_metrics 65000 22000 1800 900 120000 ("Medium")).env_score ≤ 100 :=
  ⟨by norm_num,
   (env_score_bounded 65000 22000 1800 900 120000 ("Medium") (by norm_num)
      (Or.inr (Or.inl rfl))).2.1,
   (env_score_bounded 65000 22000 1800 900 120000 ("Medium") (by norm_num)
      (Or.inr (Or.inl rfl))).2.2⟩

/-- Claim C9: the recommendation rules apply high salinity first — tds above
80000 always yields the evaporation/salt-recovery strategy, and the
magnesium-recovery strategy is only reachable with tds at most 80000. -/
theorem high_salinity_priority (tds mg : ℚ) (loc : String) :
    (tds > 80000 →
        get_recommendation tds mg loc = "High Salinity: Evaporation & Salt Recovery System")
      ∧ (get_recommendation tds mg loc = "Magnesium Recovery via Chemical Precipitation" →
        tds ≤ 80000) := by
  constructor
  · intro h
    unfold get_recommendation
    rw [if_pos h]
  · intro h
    by_contra hcon
    push_neg at hcon
    unfold get_recommendation at h
    rw [if_pos hcon] at h
    exact absurd h (by decide)

/-- Witness for claim C9: tds 90000 forces the salt-recovery strategy even
with mg 2000; the magnesium strategy at tds 60000 implies the bound. -/
theorem high_salinity_priority_witness :
    ((90000:ℚ) > 80000
      ∧ get_recommendation 90000 2000 ("Low")
          = "High Salinity: Evaporation & Salt Recovery System")
      ∧ (get_recommendation 60000 1900 ("Low")
          = "Magnesium Recovery via Chemical Precipitation"
        ∧ (60000:ℚ) ≤ 80000) :=
  ⟨⟨by norm_num, (high_salinity_priority 90000 2000 ("Low")).1 (by norm_num)⟩,
   ⟨by decide, (high_salinity_priority 60000 1900 ("Low")).2 (by decide)⟩⟩

/-- Claim C10: a score below 45 yields the NOT RECOMMENDED verdict whatever
the profit, and a score of at least 45 with profit exactly 500 yields the
PROCEED WITH CAUTION verdict. -/
theorem verdict_boundaries (score profit : ℚ) :
    (score < 45 → (get_viability_verdict score profit).1 = "⛔ NOT RECOMMENDED")
      ∧ (45 ≤ score → profit = 500 →
        (get_viability_verdict score profit).1 = "⚖️ PROCEED WITH CAUTION") := by
  constructor
  · intro h
    have h1 : ¬ (score ≥ 75 ∧ profit > PROFIT_THRESHOLD) := fun hc =>
      absurd hc.1 (by linarith)
    unfold get_viability_verdict
    rw [if_neg h1, if_pos h]
  · intro hs hp
    have h1 : ¬ (score ≥ 75 ∧ profit > PROFIT_THRESHOLD) := by
      intro hc
      have h500 := hc.2
      unfold PROFIT_THRESHOLD at h500
      linarith
    have h2 : ¬ score < 45 := by linarith
    have h3 : ¬ profit < PROFIT_THRESHOLD := by
      unfold PROFIT_THRESHOLD
      linarith
    unfold get_viability_verdict
    rw [if_neg h1, if_neg h2, if_neg h3]

/-- Witness for claim C10: score 40 with huge profit is NOT RECOMMENDED;
score 80 with profit exactly 500 is PROCEED WITH CAUTION. -/
theorem verdict_boundaries_witness :
    ((40:ℚ) < 45 ∧ (get_viability_verdict 40 9999).1 = "⛔ NOT RECOMMENDED")
      ∧ ((45:ℚ) ≤ 80 ∧ (get_viability_verdict 80 500).1 = "⚖️ PROCEED WITH CAUTION") :=
  ⟨⟨by norm_num, (verdict_boundaries 40 9999).1 (by norm_num)⟩,
   ⟨by norm_num, (verdict_boundaries 80 500).2 (by norm_num) rfl⟩⟩
